import Mathlib

/-!
Verification of the order-intake / order-cancellation Firebase functions
(`createOrderDelivery`, `cancelOrderDelivery`) of the piter-app repository.

The embedding follows the Realtime-Database variant of the functions, the
variant that maintains the secondary indexes `ordersDeliveryByUser`,
`ordersDeliveryByLocal` and `ordersDeliveryByStatus` that the claims are
about.  Money and coordinates are modelled as rationals; JavaScript
`Number(x || 0)` coercion of a possibly-absent numeric field is modelled by
`Option ℚ` with `Option.getD 0` (an absent or JS-falsy number becomes `0`);
`String(x || "")` on a string field is modelled by a plain `String` whose
empty value stands for any JS-falsy input.  The store-assigned push keys and
the server timestamp are passed to the operations as explicit parameters.
The single `rtdb.ref().update(updates)` multi-location write of the source
is the single new `Store` value an operation returns.
-/

attribute [local semireducible] Rat.ofScientific Rat.mul Rat.inv Rat.add Rat.sub

/-- One raw line item as it arrives in the request body, before
normalization.  Numeric fields are `Option ℚ` (`none` = absent/falsy). -/
structure RawItem where
  productId : String
  productName : String
  quantity : Option ℚ
  unitPrice : Option ℚ
  comments : String
  image : String
deriving DecidableEq

/-- A normalized line item, the value stored under an `i<n>` key of the
order's `items` object. -/
structure Item where
  productId : String
  productName : String
  quantity : ℚ
  unitPrice : ℚ
  totalPrice : ℚ
  comments : String
  image : String
deriving DecidableEq

/-- The request body's `location` object. -/
structure ReqLocation where
  lat : Option ℚ
  lng : Option ℚ
  addressText : String
  references : String
deriving DecidableEq

/-- The `totals` object computed by `calcTotals`. -/
structure Totals where
  subtotal : ℚ
  deliveryFee : ℚ
  discount : ℚ
  total : ℚ
  currency : String
deriving DecidableEq

/-- The order's `payment` object. -/
structure Payment where
  method : String
  status : String
deriving DecidableEq

/-- One entry of the order's append-only `history` log.  The field `by_`
models the JSON key `by` (a Lean keyword); `at_` models `at`. -/
structure HistEntry where
  status : String
  at_ : Nat
  by_ : String
  reason : Option String
deriving DecidableEq

/-- The `location` object stored inside an order. -/
structure OrderLocation where
  zoneId : String
  zoneName : String
  lat : ℚ
  lng : ℚ
  addressText : String
  references : String
deriving DecidableEq

/-- Denormalized customer display copy stored inside an order. -/
structure CustomerSnapshot where
  name : String
  phone : String
deriving DecidableEq

/-- Denormalized merchant display copy stored inside an order. -/
structure LocalSnapshot where
  name : String
  phone : String
  logoUrl : String
deriving DecidableEq

/-- The persisted order aggregate, one entry of the `ordersDelivery` tree.
`items` and `history` keep their push/`i<n>` keys as association lists in
insertion order. -/
structure Order where
  id : String
  type : String
  userId : String
  localId : String
  deliveryManId : Option String
  status : String
  createdAt : Nat
  updatedAt : Nat
  payment : Payment
  totals : Totals
  items : List (String × Item)
  location : OrderLocation
  customerSnapshot : CustomerSnapshot
  localSnapshot : LocalSnapshot
  history : List (String × HistEntry)
  cancelReason : Option String
  cancelledAt : Option Nat
deriving DecidableEq

/-- The parsed body of a `POST /createOrderDelivery` request. -/
structure CreateRequest where
  userId : String
  localId : String
  zoneId : String
  zoneName : String
  location : Option ReqLocation
  items : Option (List RawItem)
  paymentMethod : String
  deliveryFee : Option ℚ
  discount : Option ℚ
  customerName : String
  customerPhone : String
  localName : String
  localPhone : String
  localLogoUrl : String
deriving DecidableEq

/-- The Realtime-Database state the functions read and write: the
`ordersDelivery` tree plus the three secondary index trees.  An index cell
that is `false` models an absent key (writing `null` deletes it). -/
structure Store where
  orders : String → Option Order
  byUser : String → String → Bool
  byLocal : String → String → Bool
  byStatus : String → String → Bool

/-- Result of a `createOrderDelivery` call: the JSON `{ok:true, orderId}`
on success, or the HTTP status code with the `error` message. -/
inductive CreateResult where
  | ok (orderId : String)
  | err (code : Nat) (msg : String)
deriving DecidableEq

/-- Result of a `cancelOrderDelivery` call: the JSON `{ok:true}` on
success, or the HTTP status code with the `error` message. -/
inductive CancelResult where
  | ok
  | err (code : Nat) (msg : String)
deriving DecidableEq

/-- JS truthiness of a possibly-absent numeric request field: `0`, `NaN`
and absence are falsy.  Models the raw checks `!location?.lat`. -/
def truthyNum : Option ℚ → Bool
  | none => false
  | some q => q != 0

/-- The request's `location?.lat`. -/
def locLat (req : CreateRequest) : Option ℚ :=
  (req.location).bind ReqLocation.lat

/-- The request's `location?.lng`. -/
def locLng (req : CreateRequest) : Option ℚ :=
  (req.location).bind ReqLocation.lng

/-- Normalization of one raw item into the canonical shape, as done by the
`items.forEach` loop: numeric fields coerced with default `0`, `totalPrice`
initialised to `0`. -/
def normalizeItem (it : RawItem) : Item :=
  { productId := it.productId
    productName := it.productName
    quantity := it.quantity.getD 0
    unitPrice := it.unitPrice.getD 0
    totalPrice := 0
    comments := it.comments
    image := it.image }

/-- The key `i<n>` used for the n-th item (1-based). -/
def itemKey (n : Nat) : String :=
  "i" ++ toString n

/-- Builds the keyed `itemsObj` from the raw items, keys `i<n>` starting
at `n`. -/
def buildItems : Nat → List RawItem → List (String × Item)
  | _, [] => []
  | n, it :: rest => (itemKey n, normalizeItem it) :: buildItems (n + 1) rest

/-- The `itemsObj` record built from the request's items (keys `i1`, `i2`,
... in input order). -/
def itemsObjOf (its : List RawItem) : List (String × Item) :=
  buildItems 1 its

/-- The per-item validation predicate of the `for (const [k, it] of
Object.entries(itemsObj))` loop: fails on empty `productId` or
`productName`, non-positive `quantity`, or negative `unitPrice`. -/
def invalidItem (it : Item) : Bool :=
  decide (it.productId = "" ∨ it.productName = "" ∨ it.quantity ≤ 0 ∨ it.unitPrice < 0)

/-- The key of the first invalid entry of `itemsObj`, if any — the loop
returns on the first violation. -/
def firstInvalid : List (String × Item) → Option String
  | [] => none
  | (k, it) :: rest => if invalidItem it then some k else firstInvalid rest

/-- `it.totalPrice = expectedTotal` where `expectedTotal = qty * unit`:
the mutation `calcTotals` performs on each item. -/
def setItemTotal (it : Item) : Item :=
  { it with totalPrice := it.quantity * it.unitPrice }

/-- The items after `calcTotals` has run over them (each `totalPrice`
recomputed as `quantity * unitPrice`). -/
def withTotals (l : List (String × Item)) : List (String × Item) :=
  l.map (fun p => (p.1, setItemTotal p.2))

/-- `calcTotals` of the source: `subtotal` is the sum of the recomputed
per-item totals, `total = max(0, subtotal + deliveryFee - discount)`,
currency fixed at MXN.  The item mutation is `withTotals`. -/
def calcTotals (l : List (String × Item)) (deliveryFee : ℚ) (discount : ℚ) : Totals :=
  let subtotal := ((withTotals l).map (fun p => p.2.totalPrice)).sum
  { subtotal := subtotal
    deliveryFee := deliveryFee
    discount := discount
    total := max 0 (subtotal + deliveryFee - discount)
    currency := "MXN" }

/-- `calcTotalsFromItemTotals` of the Firestore variant
(`functions/src/index.ts`): sums the caller-supplied per-item `totalPrice`,
fee and discount fixed at `0`. -/
def calcTotalsFromItemTotals (items : List Item) : Totals :=
  let subtotal := (items.map Item.totalPrice).sum
  { subtotal := subtotal
    deliveryFee := 0
    discount := 0
    total := max 0 subtotal
    currency := "MXN" }

/-- `isCancellable`: `["created", "confirmed"].includes(String(status || ""))`. -/
def isCancellable (status : String) : Bool :=
  ["created", "confirmed"].contains (if status = "" then "" else status)

/-- Point update of the `ordersDelivery` tree. -/
def setOrder (f : String → Option Order) (k : String) (v : Option Order) :
    String → Option Order :=
  fun x => if x = k then v else f x

/-- Point update of an index tree at `(bucket, orderId)`; writing `false`
models the RTDB `null` deletion. -/
def setIdx (f : String → String → Bool) (k id : String) (v : Bool) :
    String → String → Bool :=
  fun a b => if a = k ∧ b = id then v else f a b

/-- The empty database. -/
def emptyStore : Store :=
  { orders := fun _ => none
    byUser := fun _ _ => false
    byLocal := fun _ _ => false
    byStatus := fun _ _ => false }

/-- The `Missing required fields` message of the merchant/zone/location
validation step. -/
def missingFieldsMsg : String :=
  "Missing required fields: localId, zoneId, location.lat, location.lng"

/-- The `POST /createOrderDelivery` handler (success path of the
transport wrapper).  `orderId` and `historyId` are the store-assigned push
keys, `ts` the server timestamp; the final `rtdb.ref().update(updates)` is
the returned store. -/
def createOrderDelivery (req : CreateRequest) (orderId historyId : String)
    (ts : Nat) (s : Store) : CreateResult × Store :=
  if req.userId = "" then (.err 400 "Missing userId", s)
  else if req.localId = "" ∨ req.zoneId = "" ∨
      truthyNum (locLat req) = false ∨ truthyNum (locLng req) = false then
    (.err 400 missingFieldsMsg, s)
  else match req.items with
    | none => (.err 400 "Items must be a non-empty array", s)
    | some its =>
      if its = [] then (.err 400 "Items must be a non-empty array", s)
      else
        let itemsObj := itemsObjOf its
        match firstInvalid itemsObj with
        | some k => (.err 400 ("Invalid item at " ++ k), s)
        | none =>
          let fee := req.deliveryFee.getD 0
          let disc := req.discount.getD 0
          let totals := calcTotals itemsObj fee disc
          let orderData : Order :=
            { id := orderId
              type := "delivery"
              userId := req.userId
              localId := req.localId
              deliveryManId := none
              status := "created"
              createdAt := ts
              updatedAt := ts
              payment := { method := if req.paymentMethod = "" then "cash"
                                     else req.paymentMethod
                           status := "pending" }
              totals := totals
              items := withTotals itemsObj
              location := { zoneId := req.zoneId
                            zoneName := req.zoneName
                            lat := (locLat req).getD 0
                            lng := (locLng req).getD 0
                            addressText :=
                              ((req.location).map ReqLocation.addressText).getD ""
                            references :=
                              ((req.location).map ReqLocation.references).getD "" }
              customerSnapshot := { name := req.customerName
                                    phone := req.customerPhone }
              localSnapshot := { name := req.localName
                                 phone := req.localPhone
                                 logoUrl := req.localLogoUrl }
              history := [(historyId, { status := "created", at_ := ts,
                                        by_ := "user", reason := none })]
              cancelReason := none
              cancelledAt := none }
          let s' : Store :=
            { orders := setOrder s.orders orderId (some orderData)
              byUser := setIdx s.byUser req.userId orderId true
              byLocal := setIdx s.byLocal req.localId orderId true
              byStatus := setIdx s.byStatus "created" orderId true }
          (.ok orderId, s')

/-- The `POST /cancelOrderDelivery` handler.  `historyId` is the push key
of the appended history entry, `ts` the server timestamp; the single
multi-location `update(updates)` is the returned store. -/
def cancelOrderDelivery (userId orderId reason historyId : String)
    (ts : Nat) (s : Store) : CancelResult × Store :=
  if userId = "" ∨ orderId = "" then (.err 400 "Missing userId or orderId", s)
  else match s.orders orderId with
    | none => (.err 404 "Order not found", s)
    | some order =>
      if order.userId ≠ userId then (.err 403 "Forbidden", s)
      else
        let currentStatus := if order.status = "" then "created" else order.status
        if isCancellable currentStatus = false then
          (.err 400 ("Order cannot be cancelled from status: " ++ currentStatus), s)
        else
          let order' : Order :=
            { order with
              status := "cancelled"
              updatedAt := ts
              cancelReason := some reason
              cancelledAt := some ts
              history := order.history ++
                [(historyId, { status := "cancelled", at_ := ts,
                               by_ := "user", reason := some reason })] }
          let s' : Store :=
            { s with
              orders := setOrder s.orders orderId (some order')
              byStatus := setIdx (setIdx s.byStatus currentStatus orderId false)
                            "cancelled" orderId true }
          (.ok, s')

/-- Spec-side formula: the item sum `Σ quantity_i * unitPrice_i` over the
request's raw items, after the same `Number(x || 0)` coercion the code
applies. -/
def itemSum (its : List RawItem) : ℚ :=
  (its.map (fun r => r.quantity.getD 0 * r.unitPrice.getD 0)).sum

/-- The order document the success path of `createOrderDelivery`
constructs, expressed over the request (the success path has
`req.items = some its`, so `req.items.getD []` is its items). -/
def orderDataOf (req : CreateRequest) (orderId historyId : String) (ts : Nat) :
    Order :=
  let itemsObj := itemsObjOf (req.items.getD [])
  { id := orderId
    type := "delivery"
    userId := req.userId
    localId := req.localId
    deliveryManId := none
    status := "created"
    createdAt := ts
    updatedAt := ts
    payment := { method := if req.paymentMethod = "" then "cash"
                           else req.paymentMethod
                 status := "pending" }
    totals := calcTotals itemsObj (req.deliveryFee.getD 0) (req.discount.getD 0)
    items := withTotals itemsObj
    location := { zoneId := req.zoneId
                  zoneName := req.zoneName
                  lat := (locLat req).getD 0
                  lng := (locLng req).getD 0
                  addressText := ((req.location).map ReqLocation.addressText).getD ""
                  references := ((req.location).map ReqLocation.references).getD "" }
    customerSnapshot := { name := req.customerName
                          phone := req.customerPhone }
    localSnapshot := { name := req.localName
                       phone := req.localPhone
                       logoUrl := req.localLogoUrl }
    history := [(historyId, { status := "created", at_ := ts,
                              by_ := "user", reason := none })]
    cancelReason := none
    cancelledAt := none }

/-- The store state the success path of `createOrderDelivery` writes. -/
def createdStore (req : CreateRequest) (orderId historyId : String) (ts : Nat)
    (s : Store) : Store :=
  { orders := setOrder s.orders orderId (some (orderDataOf req orderId historyId ts))
    byUser := setIdx s.byUser req.userId orderId true
    byLocal := setIdx s.byLocal req.localId orderId true
    byStatus := setIdx s.byStatus "created" orderId true }

/-- Status-index consistency: a missing order is in no bucket of
`ordersDeliveryByStatus`; an existing order has status `created` or
`cancelled` (the only statuses these two operations write) and sits in
exactly the bucket of its status. -/
def StatusInv (s : Store) : Prop :=
  (∀ id, s.orders id = none → ∀ b, s.byStatus b id = false) ∧
  (∀ id o, s.orders id = some o →
    (o.status = "created" ∨ o.status = "cancelled") ∧
    (∀ b, (s.byStatus b id = true ↔ b = o.status)))

/-- The stores reachable from the empty database by any sequence of
`createOrderDelivery` and `cancelOrderDelivery` calls; the push key handed
to a create is fresh, as RTDB push keys are. -/
inductive Reach : Store → Prop where
  | base : Reach emptyStore
  | step_create (req : CreateRequest) (oid hid : String) (ts : Nat) {s : Store} :
      Reach s → s.orders oid = none →
      Reach (createOrderDelivery req oid hid ts s).2
  | step_cancel (u oid r hid : String) (ts : Nat) {s : Store} :
      Reach s → Reach (cancelOrderDelivery u oid r hid ts s).2

/-- Raw item of the worked example exactly as the spec writes it: no
`productName` field. -/
def rawItemNoName : RawItem :=
  { productId := "p1", productName := "", quantity := some 2,
    unitPrice := some 50, comments := "", image := "" }

/-- The worked example's item with a non-empty `productName` added. -/
def rawItemP1 : RawItem :=
  { rawItemNoName with productName := "P1" }

/-- The worked example's intake request (with the `productName` the item
validation requires). -/
def reqSample : CreateRequest :=
  { userId := "u1", localId := "L1", zoneId := "Z1", zoneName := "",
    location := some { lat := some (19.4 : ℚ), lng := some (-99.1 : ℚ),
                       addressText := "", references := "" },
    items := some [rawItemP1],
    paymentMethod := "", deliveryFee := none, discount := none,
    customerName := "", customerPhone := "",
    localName := "", localPhone := "", localLogoUrl := "" }

/-- The worked example's intake request exactly as the spec writes it
(its only item has no `productName`). -/
def reqSpecExample : CreateRequest :=
  { reqSample with items := some [rawItemNoName] }

/-- A request whose location has `lat = 0` (finite) and `lng = 1`. -/
def reqLatZero : CreateRequest :=
  { reqSample with
    location := some { lat := some 0, lng := some 1,
                       addressText := "", references := "" } }

/-- Two-item request: the first item has an empty `productId`, the second
has `quantity = 0`. -/
def reqTwoBadItems : CreateRequest :=
  { reqSample with
    items := some
      [{ productId := "", productName := "N", quantity := some 2,
         unitPrice := some 1, comments := "", image := "" },
       { productId := "p2", productName := "N", quantity := some 0,
         unitPrice := some 1, comments := "", image := "" }] }

/-- An item that fails validation only through `quantity = 0`. -/
def itemQtyZero : RawItem :=
  { productId := "p2", productName := "N", quantity := some 0,
    unitPrice := some 1, comments := "", image := "" }

/-- Request whose first item is valid and whose second item has
`quantity = 0`. -/
def reqQtyBad : CreateRequest :=
  { reqSample with items := some [rawItemP1, itemQtyZero] }

/-- A stored order in status `created`, owned by `u1`. -/
def orderA : Order :=
  { id := "o1", type := "delivery", userId := "u1", localId := "L1",
    deliveryManId := none, status := "created", createdAt := 1, updatedAt := 1,
    payment := { method := "cash", status := "pending" },
    totals := { subtotal := 100, deliveryFee := 0, discount := 0,
                total := 100, currency := "MXN" },
    items := [("i1", { productId := "p1", productName := "P1", quantity := 2,
                       unitPrice := 50, totalPrice := 100,
                       comments := "", image := "" })],
    location := { zoneId := "Z1", zoneName := "", lat := (19.4 : ℚ),
                  lng := (-99.1 : ℚ), addressText := "", references := "" },
    customerSnapshot := { name := "", phone := "" },
    localSnapshot := { name := "", phone := "", logoUrl := "" },
    history := [("h1", { status := "created", at_ := 1, by_ := "user",
                         reason := none })],
    cancelReason := none, cancelledAt := none }

/-- `orderA` with a falsy (empty) stored `status`. -/
def orderEmptyStatus : Order :=
  { orderA with status := "" }

/-- `orderA` already in a terminal status outside the cancellable set. -/
def orderDelivered : Order :=
  { orderA with status := "delivered" }

/-- A one-order store fixture. -/
def storeWith (o : Order) : Store :=
  { emptyStore with orders := setOrder emptyStore.orders "o1" (some o) }


theorem setOrder_self (f : String → Option Order) (k : String) (v : Option Order) :
    setOrder f k v k = v := by
  simp [setOrder]

theorem setOrder_ne (f : String → Option Order) (k x : String) (v : Option Order)
    (h : x ≠ k) : setOrder f k v x = f x := by
  simp [setOrder, h]

theorem dataAppend (s t : String) : (s ++ t).data = s.data ++ t.data := by
  cases s; cases t; rfl

theorem invalidItemMsg_ne (k : String) :
    ("Invalid item at " ++ k) ≠ missingFieldsMsg := by
  intro h
  have h2 : ("Invalid item at ").data ++ k.data = missingFieldsMsg.data := by
    rw [← dataAppend, h]
  have h3 := congrArg (fun l => List.take ("Invalid item at ").data.length l) h2
  simp only [List.take_left] at h3
  exact absurd h3 (by decide)

theorem withTotals_sum (its : List RawItem) (n : Nat) :
    ((withTotals (buildItems n its)).map (fun p => p.2.totalPrice)).sum
      = itemSum its := by
  induction its generalizing n with
  | nil => simp [buildItems, withTotals, itemSum]
  | cons it rest ih =>
    simp only [buildItems, withTotals, List.map_cons, List.sum_cons, itemSum] at ih ⊢
    rw [ih]
    simp [setItemTotal, normalizeItem, itemSum]

theorem create_ok_spec (req : CreateRequest) (oid hid : String) (ts : Nat)
    (s : Store) (oid2 : String)
    (h : (createOrderDelivery req oid hid ts s).1 = CreateResult.ok oid2) :
    oid2 = oid ∧
    (createOrderDelivery req oid hid ts s).2 = createdStore req oid hid ts s := by
  by_cases h1 : req.userId = ""
  · simp [createOrderDelivery, h1] at h
  by_cases h2 : req.localId = "" ∨ req.zoneId = "" ∨
      truthyNum (locLat req) = false ∨ truthyNum (locLng req) = false
  · simp [createOrderDelivery, h1, h2] at h
  rcases h3 : req.items with _ | its
  · simp [createOrderDelivery, h1, h2, h3] at h
  by_cases h4 : its = []
  · simp [createOrderDelivery, h1, h2, h3, h4] at h
  rcases h5 : firstInvalid (itemsObjOf its) with _ | k
  · simp only [createOrderDelivery, h1, h2, h3, h4, h5, if_neg, if_false] at h ⊢
    simp at h
    refine ⟨h.symm, ?_⟩
    simp [createdStore, orderDataOf, h3]
  · simp [createOrderDelivery, h1, h2, h3, h4, h5] at h

/-- Claim C1: for every intake request that passes validation, the created
order's totals satisfy `subtotal = Σ quantity_i * unitPrice_i`,
`total = max(0, subtotal + deliveryFee - discount)` with `deliveryFee` and
`discount` defaulting to `0` when absent, currency fixed at MXN, and
`total ≥ 0`. -/
theorem c1_totals_correct (req : CreateRequest) (oid hid : String) (ts : Nat)
    (s : Store) (oid2 : String)
    (h : (createOrderDelivery req oid hid ts s).1 = CreateResult.ok oid2) :
    ∃ o, (createOrderDelivery req oid hid ts s).2.orders oid2 = some o ∧
      o.totals.subtotal = itemSum (req.items.getD []) ∧
      o.totals.deliveryFee = req.deliveryFee.getD 0 ∧
      o.totals.discount = req.discount.getD 0 ∧
      o.totals.currency = "MXN" ∧
      o.totals.total = max 0 (itemSum (req.items.getD []) +
        req.deliveryFee.getD 0 - req.discount.getD 0) ∧
      0 ≤ o.totals.total := by
  obtain ⟨heq, hs⟩ := create_ok_spec req oid hid ts s oid2 h
  subst heq
  rw [hs]
  refine ⟨orderDataOf req oid2 hid ts, ?_, ?_, ?_, ?_, ?_, ?_, ?_⟩
  · simp [createdStore, setOrder_self]
  · simp [orderDataOf, calcTotals, itemsObjOf, withTotals_sum]
  · simp [orderDataOf, calcTotals]
  · simp [orderDataOf, calcTotals]
  · simp [orderDataOf, calcTotals]
  · simp [orderDataOf, calcTotals, itemsObjOf, withTotals_sum]
  · simp [orderDataOf, calcTotals, le_max_left]

theorem c1_totals_correct_witness :
    ∃ o, (createOrderDelivery reqSample "o1" "h1" 0 emptyStore).2.orders "o1"
        = some o ∧
      o.totals.subtotal = itemSum (reqSample.items.getD []) ∧
      o.totals.deliveryFee = reqSample.deliveryFee.getD 0 ∧
      o.totals.discount = reqSample.discount.getD 0 ∧
      o.totals.currency = "MXN" ∧
      o.totals.total = max 0 (itemSum (reqSample.items.getD []) +
        reqSample.deliveryFee.getD 0 - reqSample.discount.getD 0) ∧
      0 ≤ o.totals.total :=
  c1_totals_correct reqSample "o1" "h1" 0 emptyStore "o1" (by decide)

/-- Claim C2: after every successful `createOrderDelivery`, the order is
retrievable by the assigned id, the id appears in the user index, the
merchant index and the `created` status bucket, and the order's history has
exactly one entry, with status `created`. -/
theorem c2_intake_visibility (req : CreateRequest) (oid hid : String) (ts : Nat)
    (s : Store) (oid2 : String)
    (h : (createOrderDelivery req oid hid ts s).1 = CreateResult.ok oid2) :
    ∃ o, (createOrderDelivery req oid hid ts s).2.orders oid2 = some o ∧
      (createOrderDelivery req oid hid ts s).2.byUser req.userId oid2 = true ∧
      (createOrderDelivery req oid hid ts s).2.byLocal req.localId oid2 = true ∧
      (createOrderDelivery req oid hid ts s).2.byStatus "created" oid2 = true ∧
      o.history.length = 1 ∧ ∀ e ∈ o.history, e.2.status = "created" := by
  obtain ⟨heq, hs⟩ := create_ok_spec req oid hid ts s oid2 h
  subst heq
  rw [hs]
  refine ⟨orderDataOf req oid2 hid ts, ?_, ?_, ?_, ?_, ?_, ?_⟩ <;>
    simp [createdStore, setOrder_self, setIdx, orderDataOf]

theorem c2_intake_visibility_witness :
    ∃ o, (createOrderDelivery reqSample "o1" "h1" 0 emptyStore).2.orders "o1"
        = some o ∧
      (createOrderDelivery reqSample "o1" "h1" 0 emptyStore).2.byUser
        reqSample.userId "o1" = true ∧
      (createOrderDelivery reqSample "o1" "h1" 0 emptyStore).2.byLocal
        reqSample.localId "o1" = true ∧
      (createOrderDelivery reqSample "o1" "h1" 0 emptyStore).2.byStatus
        "created" "o1" = true ∧
      o.history.length = 1 ∧ ∀ e ∈ o.history, e.2.status = "created" :=
  c2_intake_visibility reqSample "o1" "h1" 0 emptyStore "o1" (by decide)

/-- Claim C3: cancelling an existing, caller-owned order whose stored
status is `created` or `confirmed` succeeds with `{ok:true}`; in the one
resulting store the status is `cancelled`, `cancelReason` and `cancelledAt`
are set, exactly one history entry `{status: cancelled, by: user, reason}`
is appended, and the order's id moves from the prior status bucket to the
`cancelled` bucket. -/
theorem c3_cancel_success (u oid r hid : String) (ts : Nat) (s : Store)
    (o : Order) (hu : u ≠ "") (ho : oid ≠ "") (hord : s.orders oid = some o)
    (hown : o.userId = u)
    (hst : o.status = "created" ∨ o.status = "confirmed") :
    (cancelOrderDelivery u oid r hid ts s).1 = CancelResult.ok ∧
    (cancelOrderDelivery u oid r hid ts s).2.orders oid = some
      { o with
        status := "cancelled"
        updatedAt := ts
        cancelReason := some r
        cancelledAt := some ts
        history := o.history ++ [(hid,
          { status := "cancelled", at_ := ts, by_ := "user", reason := some r })] } ∧
    (cancelOrderDelivery u oid r hid ts s).2.byStatus o.status oid = false ∧
    (cancelOrderDelivery u oid r hid ts s).2.byStatus "cancelled" oid = true := by
  have hne : o.status ≠ "" := by rcases hst with h | h <;> simp [h]
  have hcanc : isCancellable o.status = true := by
    rcases hst with h | h <;> simp [isCancellable, h]
  have hncanc : o.status ≠ "cancelled" := by
    rcases hst with h | h <;> simp [h]
  refine ⟨?_, ?_, ?_, ?_⟩ <;>
    simp [cancelOrderDelivery, hord, hu, ho, hown, hne, hcanc, hncanc,
      setOrder, setIdx]

theorem c3_cancel_success_witness :
    (cancelOrderDelivery "u1" "o1" "changed mind" "h2" 5 (storeWith orderA)).1
      = CancelResult.ok ∧
    (cancelOrderDelivery "u1" "o1" "changed mind" "h2" 5
        (storeWith orderA)).2.orders "o1" = some
      { orderA with
        status := "cancelled"
        updatedAt := 5
        cancelReason := some "changed mind"
        cancelledAt := some 5
        history := orderA.history ++ [("h2",
          { status := "cancelled", at_ := 5, by_ := "user",
            reason := some "changed mind" })] } ∧
    (cancelOrderDelivery "u1" "o1" "changed mind" "h2" 5
        (storeWith orderA)).2.byStatus orderA.status "o1" = false ∧
    (cancelOrderDelivery "u1" "o1" "changed mind" "h2" 5
        (storeWith orderA)).2.byStatus "cancelled" "o1" = true :=
  c3_cancel_success "u1" "o1" "changed mind" "h2" 5 (storeWith orderA) orderA
    (by decide) (by decide) (by decide) (by decide) (Or.inl (by decide))

/-- Claim C4, counterexample: an existing, caller-owned order whose stored
status is the empty (JS-falsy) string — a status that is neither `created`
nor `confirmed` — is nevertheless cancelled successfully, not rejected with
an InvalidStateTransition error. -/
theorem c4_counterexample :
    orderEmptyStatus.status ≠ "created" ∧ orderEmptyStatus.status ≠ "confirmed" ∧
    (storeWith orderEmptyStatus).orders "o1" = some orderEmptyStatus ∧
    orderEmptyStatus.userId = "u1" ∧
    (cancelOrderDelivery "u1" "o1" "r" "h2" 5 (storeWith orderEmptyStatus)).1
      = CancelResult.ok := by
  decide

/-- Claim C4 (amended): cancelling an existing, caller-owned order whose
stored status is non-empty (truthy) and neither `created` nor `confirmed`
yields a 400 error whose message names the current status, and the store is
unchanged. -/
theorem c4_invalid_transition (u oid r hid : String) (ts : Nat) (s : Store)
    (o : Order) (hu : u ≠ "") (ho : oid ≠ "") (hord : s.orders oid = some o)
    (hown : o.userId = u) (hne : o.status ≠ "")
    (h1 : o.status ≠ "created") (h2 : o.status ≠ "confirmed") :
    cancelOrderDelivery u oid r hid ts s =
      (CancelResult.err 400 ("Order cannot be cancelled from status: " ++ o.status),
       s) := by
  have hcanc : isCancellable o.status = false := by
    simp [isCancellable, hne, h1, h2]
  simp [cancelOrderDelivery, hord, hu, ho, hown, hne, hcanc]

theorem c4_invalid_transition_witness :
    cancelOrderDelivery "u1" "o1" "r" "h2" 5 (storeWith orderDelivered) =
      (CancelResult.err 400
        ("Order cannot be cancelled from status: " ++ orderDelivered.status),
       storeWith orderDelivered) :=
  c4_invalid_transition "u1" "o1" "r" "h2" 5 (storeWith orderDelivered)
    orderDelivered (by decide) (by decide) (by decide) (by decide) (by decide)
    (by decide) (by decide)

/-- Claim C5: cancelling an existing order whose stored `userId` differs
from the caller's returns `Forbidden` (403) and leaves the store — order
record, history and all indexes — unchanged. -/
theorem c5_forbidden (u oid r hid : String) (ts : Nat) (s : Store) (o : Order)
    (hu : u ≠ "") (ho : oid ≠ "") (hord : s.orders oid = some o)
    (hown : o.userId ≠ u) :
    cancelOrderDelivery u oid r hid ts s = (CancelResult.err 403 "Forbidden", s) := by
  simp [cancelOrderDelivery, hord, hu, ho, hown]

theorem c5_forbidden_witness :
    cancelOrderDelivery "u2" "o1" "r" "h2" 5 (storeWith orderA) =
      (CancelResult.err 403 "Forbidden", storeWith orderA) :=
  c5_forbidden "u2" "o1" "r" "h2" 5 (storeWith orderA) orderA
    (by decide) (by decide) (by decide) (by decide)

/-- Claim C10: an existing, caller-owned order whose stored status field is
falsy (modelled as the empty string) is treated as `created`: the guard
permits cancellation and the call succeeds, setting the status to
`cancelled`. -/
theorem c10_falsy_status_cancellable (u oid r hid : String) (ts : Nat)
    (s : Store) (o : Order) (hu : u ≠ "") (ho : oid ≠ "")
    (hord : s.orders oid = some o) (hown : o.userId = u)
    (hst : o.status = "") :
    (cancelOrderDelivery u oid r hid ts s).1 = CancelResult.ok ∧
    ∃ o2, (cancelOrderDelivery u oid r hid ts s).2.orders oid = some o2 ∧
      o2.status = "cancelled" := by
  refine ⟨?_, ?_⟩ <;>
    simp [cancelOrderDelivery, hord, hu, ho, hown, hst, isCancellable,
      setOrder]

theorem c10_falsy_status_cancellable_witness :
    (cancelOrderDelivery "u1" "o1" "r" "h2" 5 (storeWith orderEmptyStatus)).1
      = CancelResult.ok ∧
    ∃ o2, (cancelOrderDelivery "u1" "o1" "r" "h2" 5
        (storeWith orderEmptyStatus)).2.orders "o1" = some o2 ∧
      o2.status = "cancelled" :=
  c10_falsy_status_cancellable "u1" "o1" "r" "h2" 5 (storeWith orderEmptyStatus)
    orderEmptyStatus (by decide) (by decide) (by decide) (by decide) (by decide)

theorem firstInvalid_append (bad : RawItem) (post : List RawItem) :
    ∀ (pre : List RawItem) (n : Nat),
      (∀ it ∈ pre, invalidItem (normalizeItem it) = false) →
      invalidItem (normalizeItem bad) = true →
      firstInvalid (buildItems n (pre ++ bad :: post))
        = some (itemKey (n + pre.length)) := by
  intro pre
  induction pre with
  | nil => intro n _ hbad; simp [buildItems, firstInvalid, hbad]
  | cons p rest ih =>
    intro n hpre hbad
    have hp : invalidItem (normalizeItem p) = false := hpre p (by simp)
    have hrest : ∀ it ∈ rest, invalidItem (normalizeItem it) = false :=
      fun it hit => hpre it (by simp [hit])
    simp only [List.cons_append, buildItems, firstInvalid, hp, Bool.false_eq_true,
      if_false, List.length_cons, List.append_eq]
    rw [ih (n + 1) hrest hbad]
    have harith : n + 1 + rest.length = n + (rest.length + 1) := by omega
    rw [harith]

/-- Claim C6, counterexample: in a request whose second item (key `i2`) is
the one with `quantity ≤ 0` but whose first item is invalid for another
reason (empty `productId`), the error message names `i1`, not the index of
the non-positive-quantity item. -/
theorem c6_counterexample :
    (createOrderDelivery reqTwoBadItems "o1" "h1" 0 emptyStore).1
      = CreateResult.err 400 ("Invalid item at " ++ itemKey 1) ∧
    ((itemsObjOf (reqTwoBadItems.items.getD [])).lookup (itemKey 1)).map
      Item.quantity = some 2 ∧
    ((itemsObjOf (reqTwoBadItems.items.getD [])).lookup (itemKey 2)).map
      Item.quantity = some 0 := by
  decide

/-- Claim C6 (amended): for every intake request that passes the userId and
merchant/zone/location checks and whose first invalid item (in `i1`, `i2`,
... order) is one with coerced `quantity ≤ 0`, intake fails with the
`Invalid item at i<index>` error naming that item's key, and nothing is
written to the store. -/
theorem c6_invalid_item_first (req : CreateRequest) (oid hid : String)
    (ts : Nat) (s : Store) (pre post : List RawItem) (bad : RawItem)
    (hu : req.userId ≠ "")
    (hloc : ¬(req.localId = "" ∨ req.zoneId = "" ∨
      truthyNum (locLat req) = false ∨ truthyNum (locLng req) = false))
    (hitems : req.items = some (pre ++ bad :: post))
    (hpre : ∀ it ∈ pre, invalidItem (normalizeItem it) = false)
    (hbad : (normalizeItem bad).quantity ≤ 0) :
    createOrderDelivery req oid hid ts s =
      (CreateResult.err 400 ("Invalid item at " ++ itemKey (1 + pre.length)), s) := by
  have hbad2 : invalidItem (normalizeItem bad) = true := by
    simp only [invalidItem, decide_eq_true_eq]
    exact Or.inr (Or.inr (Or.inl hbad))
  have hfi := firstInvalid_append bad post pre 1 hpre hbad2
  simp [createOrderDelivery, hu, hloc, hitems, itemsObjOf, hfi]

theorem c6_invalid_item_first_witness :
    createOrderDelivery reqQtyBad "o1" "h1" 0 emptyStore =
      (CreateResult.err 400
        ("Invalid item at " ++ itemKey (1 + ([rawItemP1] : List RawItem).length)),
       emptyStore) :=
  c6_invalid_item_first reqQtyBad "o1" "h1" 0 emptyStore [rawItemP1] []
    itemQtyZero (by decide) (by decide) (by decide) (by decide) (by decide)

/-- Claim C7, counterexample: a request with non-empty `localId` and
`zoneId` and finite numeric coordinates `lat = 0`, `lng = 1` is rejected by
the merchant/zone/location validation step (the code tests JS truthiness of
the raw `lat`, so the finite value `0` fails), where the claim says it
passes. -/
theorem c7_counterexample :
    reqLatZero.localId ≠ "" ∧ reqLatZero.zoneId ≠ "" ∧
    locLat reqLatZero = some 0 ∧ locLng reqLatZero = some 1 ∧
    (createOrderDelivery reqLatZero "o1" "h1" 0 emptyStore).1
      = CreateResult.err 400 missingFieldsMsg := by
  decide

/-- Claim C7 (amended): given a non-empty `userId`, the merchant/zone/
location validation step fails with the 400 `Missing required fields`
error exactly when `localId` or `zoneId` is empty or the raw `lat` or
`lng` is JS-falsy (absent or `0`); in particular a request with non-empty
`localId`, `zoneId` and nonzero numeric coordinates passes this step. -/
theorem c7_location_check (req : CreateRequest) (oid hid : String) (ts : Nat)
    (s : Store) (hu : req.userId ≠ "") :
    ((createOrderDelivery req oid hid ts s).1
        = CreateResult.err 400 missingFieldsMsg)
      ↔ (req.localId = "" ∨ req.zoneId = "" ∨
         truthyNum (locLat req) = false ∨ truthyNum (locLng req) = false) := by
  by_cases hc : req.localId = "" ∨ req.zoneId = "" ∨
      truthyNum (locLat req) = false ∨ truthyNum (locLng req) = false
  · simp [createOrderDelivery, hu, hc]
  · simp only [hc, iff_false]
    rcases h3 : req.items with _ | its
    · simp [createOrderDelivery, hu, hc, h3, missingFieldsMsg]
    by_cases h4 : its = []
    · simp [createOrderDelivery, hu, hc, h3, h4, missingFieldsMsg]
    rcases h5 : firstInvalid (itemsObjOf its) with _ | k
    · simp [createOrderDelivery, hu, hc, h3, h4, h5]
    · simp [createOrderDelivery, hu, hc, h3, h4, h5]
      exact invalidItemMsg_ne k

theorem c7_location_check_witness :
    (createOrderDelivery { reqSample with localId := "" } "o1" "h1" 0
        emptyStore).1 = CreateResult.err 400 missingFieldsMsg :=
  (c7_location_check { reqSample with localId := "" } "o1" "h1" 0 emptyStore
    (by decide)).mpr (Or.inl rfl)

/-- Claim C9, counterexample: the spec's worked example request (whose only
item carries no `productName`) does not succeed — the item validation also
requires a non-empty `productName`, so the request fails with
`Invalid item at i1`. -/
theorem c9_counterexample :
    (createOrderDelivery reqSpecExample "o1" "h1" 0 emptyStore).1
      = CreateResult.err 400 ("Invalid item at " ++ itemKey 1) := by
  decide

/-- Claim C9 (amended): the worked example request, with a non-empty
`productName` added to its item, succeeds and produces an order with totals
`{subtotal: 100, deliveryFee: 0, discount: 0, total: 100, currency: MXN}`
and status `created`. -/
theorem c9_example_totals :
    (createOrderDelivery reqSample "o1" "h1" 0 emptyStore).1
      = CreateResult.ok "o1" ∧
    ((createOrderDelivery reqSample "o1" "h1" 0 emptyStore).2.orders "o1").map
        Order.totals = some { subtotal := 100, deliveryFee := 0, discount := 0,
                              total := 100, currency := "MXN" } ∧
    ((createOrderDelivery reqSample "o1" "h1" 0 emptyStore).2.orders "o1").map
        Order.status = some "created" := by
  decide

theorem create_cases (req : CreateRequest) (oid hid : String) (ts : Nat)
    (s : Store) :
    (createOrderDelivery req oid hid ts s).2 = s ∨
    (createOrderDelivery req oid hid ts s).2 = createdStore req oid hid ts s := by
  by_cases h1 : req.userId = ""
  · left; simp [createOrderDelivery, h1]
  by_cases h2 : req.localId = "" ∨ req.zoneId = "" ∨
      truthyNum (locLat req) = false ∨ truthyNum (locLng req) = false
  · left; simp [createOrderDelivery, h1, h2]
  rcases h3 : req.items with _ | its
  · left; simp [createOrderDelivery, h1, h2, h3]
  by_cases h4 : its = []
  · left; simp [createOrderDelivery, h1, h2, h3, h4]
  rcases h5 : firstInvalid (itemsObjOf its) with _ | k
  · right; simp [createOrderDelivery, h1, h2, h3, h4, h5, createdStore, orderDataOf]
  · left; simp [createOrderDelivery, h1, h2, h3, h4, h5]

theorem cancel_cases (u oid r hid : String) (ts : Nat) (s : Store) :
    (cancelOrderDelivery u oid r hid ts s).2 = s ∨
    ∃ o, s.orders oid = some o ∧
      isCancellable (if o.status = "" then "created" else o.status) = true ∧
      (cancelOrderDelivery u oid r hid ts s).2 =
        { s with
          orders := setOrder s.orders oid (some
            { o with
              status := "cancelled"
              updatedAt := ts
              cancelReason := some r
              cancelledAt := some ts
              history := o.history ++ [(hid,
                { status := "cancelled", at_ := ts, by_ := "user",
                  reason := some r })] })
          byStatus := setIdx (setIdx s.byStatus
              (if o.status = "" then "created" else o.status) oid false)
            "cancelled" oid true } := by
  by_cases h1 : u = "" ∨ oid = ""
  · left; simp [cancelOrderDelivery, h1]
  rcases h2 : s.orders oid with _ | o
  · left; simp [cancelOrderDelivery, h1, h2]
  by_cases h3 : o.userId ≠ u
  · left; simp [cancelOrderDelivery, h1, h2, h3]
  by_cases h4 : isCancellable (if o.status = "" then "created" else o.status) = false
  · left; simp [cancelOrderDelivery, h1, h2, h3, h4]
  · right
    refine ⟨o, rfl, by simpa using h4, ?_⟩
    simp [cancelOrderDelivery, h1, h2, h3, h4]

theorem statusInv_empty : StatusInv emptyStore := by
  constructor
  · intro id _ b; rfl
  · intro id o h; simp [emptyStore] at h

theorem statusInv_create (req : CreateRequest) (oid hid : String) (ts : Nat)
    (s : Store) (hinv : StatusInv s) (hfresh : s.orders oid = none) :
    StatusInv (createOrderDelivery req oid hid ts s).2 := by
  rcases create_cases req oid hid ts s with h | h
  · rw [h]; exact hinv
  rw [h]
  obtain ⟨hinv1, hinv2⟩ := hinv
  constructor
  · intro id hid0 b
    by_cases hio : id = oid
    · subst hio
      simp [createdStore, setOrder_self] at hid0
    · simp only [createdStore] at hid0 ⊢
      rw [setOrder_ne _ _ _ _ hio] at hid0
      simpa [setIdx, hio] using hinv1 id hid0 b
  · intro id o2 hsome
    by_cases hio : id = oid
    · subst hio
      simp only [createdStore, setOrder_self, Option.some.injEq] at hsome
      subst hsome
      refine ⟨Or.inl (by simp [orderDataOf]), fun b => ?_⟩
      simp only [createdStore, setIdx, orderDataOf]
      by_cases hb : b = "created"
      · simp [hb]
      · simp [hb, hinv1 id hfresh b]
    · simp only [createdStore] at hsome ⊢
      rw [setOrder_ne _ _ _ _ hio] at hsome
      refine ⟨(hinv2 id o2 hsome).1, fun b => ?_⟩
      simpa [setIdx, hio] using (hinv2 id o2 hsome).2 b

theorem statusInv_cancel (u oid r hid : String) (ts : Nat) (s : Store)
    (hinv : StatusInv s) :
    StatusInv (cancelOrderDelivery u oid r hid ts s).2 := by
  rcases cancel_cases u oid r hid ts s with h | ⟨o, hord, hcanc, h⟩
  · rw [h]; exact hinv
  rw [h]
  obtain ⟨hinv1, hinv2⟩ := hinv
  have hstat : o.status = "created" ∨ o.status = "cancelled" :=
    (hinv2 oid o hord).1
  have hcur : (if o.status = "" then "created" else o.status) = o.status := by
    rcases hstat with hs1 | hs1 <;> simp [hs1]
  have hcreated : o.status = "created" := by
    rcases hstat with hs1 | hs1
    · exact hs1
    · rw [hcur, hs1] at hcanc
      simp [isCancellable] at hcanc
  rw [hcur, hcreated] at h ⊢
  constructor
  · intro id hid0 b
    by_cases hio : id = oid
    · subst hio
      simp [setOrder_self] at hid0
    · simp only at hid0 ⊢
      rw [setOrder_ne _ _ _ _ hio] at hid0
      simpa [setIdx, hio] using hinv1 id hid0 b
  · intro id o2 hsome
    by_cases hio : id = oid
    · subst hio
      simp only [setOrder_self, Option.some.injEq] at hsome
      subst hsome
      refine ⟨Or.inr rfl, fun b => ?_⟩
      simp only [setIdx]
      by_cases hb : b = "cancelled"
      · simp [hb]
      · by_cases hb2 : b = "created"
        · simp [hb, hb2]
        · have := (hinv2 id o hord).2 b
          rw [hcreated] at this
          simp [hb, hb2] at this ⊢
          simp [this]
    · simp only at hsome ⊢
      rw [setOrder_ne _ _ _ _ hio] at hsome
      refine ⟨(hinv2 id o2 hsome).1, fun b => ?_⟩
      simpa [setIdx, hio] using (hinv2 id o2 hsome).2 b

theorem reach_statusInv {s : Store} (h : Reach s) : StatusInv s := by
  induction h with
  | base => exact statusInv_empty
  | step_create req oid hid ts hr hfresh ih =>
      exact statusInv_create req oid hid ts _ ih hfresh
  | step_cancel u oid r hid ts hr ih =>
      exact statusInv_cancel u oid r hid ts _ ih

/-- Claim C8: in every store reachable from the empty database by
`createOrderDelivery` and `cancelOrderDelivery` calls, each existing
order's id lies in exactly one bucket of `ordersDeliveryByStatus`: the
bucket of its current status. -/
theorem c8_status_bucket_unique (s : Store) (h : Reach s) (id : String)
    (o : Order) (ho : s.orders id = some o) (b : String) :
    s.byStatus b id = true ↔ b = o.status :=
  ((reach_statusInv h).2 id o ho).2 b

theorem c8_status_bucket_unique_witness :
    (createOrderDelivery reqSample "o1" "h1" 0 emptyStore).2.byStatus
      "created" "o1" = true :=
  (c8_status_bucket_unique (createOrderDelivery reqSample "o1" "h1" 0 emptyStore).2
    (Reach.step_create reqSample "o1" "h1" 0 Reach.base (by decide)) "o1"
    (orderDataOf reqSample "o1" "h1" 0) (by decide) "created").mpr (by decide)
